import Mathlib

/-!
A shallow embedding of the Categoriser pipeline (ai_classifier.py,
shopify_client.py, app.py, models.py) and proofs of the specified
properties.  Python dictionaries become Lean structures; SQLAlchemy rows
become list elements; the external model and the external catalog become
explicit oracles passed as functions; exceptions become `Except` /
annotated results, mirroring where the source catches them.
-/

namespace Categoriser

/-! ## Data model (models.py) -/

/-- One element of a `ProductQueue.assigned_collections` JSON list:
a dict with keys `id`, `title`, `confidence`. -/
structure Assignment where
  id : String
  title : String
  confidence : ℚ
deriving DecidableEq, Repr

/-- A row of `collection_hierarchy` (the fields the classifier reads). -/
structure CollectionHierarchyRow where
  collection_id : String
  title : String
  level : Nat
  full_path : String
deriving DecidableEq, Repr

/-- A row of `product_queue` (the fields the pipeline reads and writes).
The `processed_at` timestamp is a `Nat` tick supplied by the caller. -/
structure QueueEntry where
  product_id : String
  title : String
  description : String
  status : String
  processed_at : Option Nat
  assigned_collections : List Assignment
  error_message : Option String
  retry_count : Nat
  applied : Bool
  confidence_scores : List ℚ
deriving DecidableEq, Repr

/-- A row of `collection_suggestions` (the fields the pipeline reads and
writes). -/
structure CollectionSuggestionRow where
  suggested_name : String
  parent_collection : String
  product_ids : List String
  product_count : Nat
  status : String
deriving DecidableEq, Repr

/-- The `collection_suggestions` table, in insertion order; `.first()`
by name is the first list element whose name matches. -/
abbrev Ledger := List CollectionSuggestionRow

/-- The model's `new_collection_suggestion` dict. -/
structure NewSuggestion where
  suggested_name : String
  parent_collection : String
  reason : String
deriving DecidableEq, Repr

/-! ## Suggestion Ledger operations (ai_classifier.py) -/

/-- Python truthiness of an optional string (`None` and `''` are falsy). -/
def optTruthy : Option String → Bool
  | some s => s ≠ ""
  | none => false

/-- The row built by `_process_collection_suggestion` when no record with
the suggested name exists: `product_ids=[product_id] if product_id else []`,
`product_count=1 if product_id else 0` (lines 164-172 of ai_classifier.py). -/
def newSuggestionRow (s : NewSuggestion) (product_id : Option String) :
    CollectionSuggestionRow :=
  { suggested_name := s.suggested_name
    parent_collection := s.parent_collection
    product_ids := if optTruthy product_id then [product_id.getD ""] else []
    product_count := if optTruthy product_id then 1 else 0
    status := "pending" }

/-- `AIClassifier._process_collection_suggestion` (ai_classifier.py lines
146-180): look up the first record whose `suggested_name` matches; if found
and the product id is truthy and not yet a contributor, append it and set
`product_count = len(product_ids)`; if not found, create a fresh record. -/
def process_collection_suggestion (s : NewSuggestion)
    (product_id : Option String) : Ledger → Ledger
  | [] => [newSuggestionRow s product_id]
  | existing :: rest =>
    if existing.suggested_name = s.suggested_name then
      (if optTruthy product_id ∧ product_id.getD "" ∉ existing.product_ids then
        { existing with
          product_ids := existing.product_ids ++ [product_id.getD ""]
          product_count := (existing.product_ids ++ [product_id.getD ""]).length }
       else existing) :: rest
    else existing :: process_collection_suggestion s product_id rest

/-- The suggestion update inlined in `AIClassifier.process_queue`
(ai_classifier.py lines 225-233): look up the first record whose
`suggested_name` matches; if found, append the product id when absent and
set `product_count = len(product_ids)`; no record is created if absent. -/
def attachProductToSuggestion (name pid : String) : Ledger → Ledger
  | [] => []
  | existing :: rest =>
    if existing.suggested_name = name then
      (if pid ∉ existing.product_ids then
        { existing with
          product_ids := existing.product_ids ++ [pid]
          product_count := (existing.product_ids ++ [pid]).length }
       else existing) :: rest
    else existing :: attachProductToSuggestion name pid rest

/-- The spec's invariant on one suggestion record: the contributor list has
no duplicates and `product_count` equals the number of distinct ids. -/
def SuggestionInv (r : CollectionSuggestionRow) : Prop :=
  r.product_ids.Nodup ∧ r.product_count = r.product_ids.dedup.length

instance (r : CollectionSuggestionRow) : Decidable (SuggestionInv r) := by
  unfold SuggestionInv; infer_instance

/-! ### Ledger lemmas -/

theorem suggestionInv_newRow (s : NewSuggestion) (pid : Option String) :
    SuggestionInv (newSuggestionRow s pid) := by
  unfold SuggestionInv newSuggestionRow
  by_cases h : optTruthy pid = true <;> simp [h]

theorem suggestionInv_append (r : CollectionSuggestionRow) (pid : String)
    (hr : SuggestionInv r) (hpid : pid ∉ r.product_ids) :
    SuggestionInv { r with
      product_ids := r.product_ids ++ [pid]
      product_count := (r.product_ids ++ [pid]).length } := by
  obtain ⟨hnd, _⟩ := hr
  constructor
  · simpa [List.nodup_append] using ⟨hnd, fun h => hpid h⟩
  · have : (r.product_ids ++ [pid]).Nodup := by
      simpa [List.nodup_append] using ⟨hnd, fun h => hpid h⟩
    simp [List.Nodup.dedup this]

theorem suggestionInv_process_collection_suggestion
    (s : NewSuggestion) (pid : Option String) (ledger : Ledger)
    (h : ∀ r ∈ ledger, SuggestionInv r) :
    ∀ r ∈ process_collection_suggestion s pid ledger, SuggestionInv r := by
  induction ledger with
  | nil =>
    intro r hr
    simp only [process_collection_suggestion, List.mem_singleton] at hr
    subst hr; exact suggestionInv_newRow s pid
  | cons existing rest ih =>
    intro r hr
    by_cases hname : existing.suggested_name = s.suggested_name
    · simp only [process_collection_suggestion, if_pos hname, List.mem_cons] at hr
      rcases hr with hr | hr
      · by_cases hcond : optTruthy pid = true ∧ pid.getD "" ∉ existing.product_ids
        · rw [if_pos hcond] at hr
          subst hr
          exact suggestionInv_append existing _ (h existing (by simp)) hcond.2
        · rw [if_neg hcond] at hr
          subst hr; exact h _ (by simp)
      · exact h r (by simp [hr])
    · simp only [process_collection_suggestion, if_neg hname, List.mem_cons] at hr
      rcases hr with hr | hr
      · subst hr; exact h _ (by simp)
      · exact ih (fun q hq => h q (by simp [hq])) r hr

theorem suggestionInv_attachProductToSuggestion
    (name pid : String) (ledger : Ledger)
    (h : ∀ r ∈ ledger, SuggestionInv r) :
    ∀ r ∈ attachProductToSuggestion name pid ledger, SuggestionInv r := by
  induction ledger with
  | nil => intro r hr; simp [attachProductToSuggestion] at hr
  | cons existing rest ih =>
    intro r hr
    by_cases hname : existing.suggested_name = name
    · simp only [attachProductToSuggestion, if_pos hname, List.mem_cons] at hr
      rcases hr with hr | hr
      · by_cases hmem : pid ∉ existing.product_ids
        · rw [if_pos hmem] at hr
          subst hr
          exact suggestionInv_append existing _ (h existing (by simp)) hmem
        · rw [if_neg hmem] at hr
          subst hr; exact h _ (by simp)
      · exact h r (by simp [hr])
    · simp only [attachProductToSuggestion, if_neg hname, List.mem_cons] at hr
      rcases hr with hr | hr
      · subst hr; exact h _ (by simp)
      · exact ih (fun q hq => h q (by simp [hq])) r hr

/-- `.filter_by(suggested_name=...).first()` on the suggestion table. -/
def findSuggestionByName (ledger : Ledger) (name : String) :
    Option CollectionSuggestionRow :=
  ledger.find? (fun r => r.suggested_name == name)

theorem process_collection_suggestion_cons
    (s : NewSuggestion) (pid : Option String)
    (existing : CollectionSuggestionRow) (rest : Ledger) :
    process_collection_suggestion s pid (existing :: rest) =
      if existing.suggested_name = s.suggested_name then
        (if optTruthy pid = true ∧ pid.getD "" ∉ existing.product_ids then
          { existing with
            product_ids := existing.product_ids ++ [pid.getD ""]
            product_count :=
              (existing.product_ids ++ [pid.getD ""]).length }
         else existing) :: rest
      else existing :: process_collection_suggestion s pid rest := by
  simp only [process_collection_suggestion]

theorem process_collection_suggestion_idem
    (s : NewSuggestion) (pid : Option String) (ledger : Ledger) :
    process_collection_suggestion s pid
      (process_collection_suggestion s pid ledger) =
      process_collection_suggestion s pid ledger := by
  induction ledger with
  | nil =>
    cases pid with
    | none => simp [process_collection_suggestion, newSuggestionRow, optTruthy]
    | some p =>
      by_cases hp : p = "" <;>
        simp [process_collection_suggestion, newSuggestionRow, optTruthy, hp]
  | cons existing rest ih =>
    rw [process_collection_suggestion_cons s pid existing rest]
    by_cases hname : existing.suggested_name = s.suggested_name
    · rw [if_pos hname]
      by_cases hcond : optTruthy pid = true ∧ pid.getD "" ∉ existing.product_ids
      · rw [if_pos hcond, process_collection_suggestion_cons]
        rw [if_pos (show ({ existing with
            product_ids := existing.product_ids ++ [pid.getD ""]
            product_count :=
              (existing.product_ids ++ [pid.getD ""]).length } :
            CollectionSuggestionRow).suggested_name = s.suggested_name from hname)]
        rw [if_neg (by simp)]
      · rw [if_neg hcond, process_collection_suggestion_cons,
          if_pos hname, if_neg hcond]
    · rw [if_neg hname, process_collection_suggestion_cons, if_neg hname, ih]

/-- C4: after every mutation of the Suggestion Ledger — the merge
operation `_process_collection_suggestion` (creation with or without a
known product id, or appending one) and the product-id attachment done by
`process_queue` — every record's `product_ids` list is duplicate-free and
its `product_count` equals the number of distinct product ids in it. -/
theorem suggestion_ledger_invariant_after_mutations :
    (∀ (s : NewSuggestion) (pid : Option String) (ledger : Ledger),
      (∀ r ∈ ledger, SuggestionInv r) →
      ∀ r ∈ process_collection_suggestion s pid ledger, SuggestionInv r) ∧
    (∀ (name pid : String) (ledger : Ledger),
      (∀ r ∈ ledger, SuggestionInv r) →
      ∀ r ∈ attachProductToSuggestion name pid ledger, SuggestionInv r) :=
  ⟨fun s pid ledger h => suggestionInv_process_collection_suggestion s pid ledger h,
   fun name pid ledger h => suggestionInv_attachProductToSuggestion name pid ledger h⟩

/-- Witness for C4: the invariant holds for the record produced by merging
the suggestion ("Vintage Lamps", parent "Home") with product id "p1" into
an empty ledger. -/
theorem suggestion_ledger_invariant_after_mutations_witness :
    SuggestionInv
      { suggested_name := "Vintage Lamps", parent_collection := "Home"
        product_ids := ["p1"], product_count := 1, status := "pending" } := by
  refine suggestion_ledger_invariant_after_mutations.1
    ⟨"Vintage Lamps", "Home", "no existing fit"⟩ (some "p1") [] (by simp) _ ?_
  decide

/-- C5: the suggestion-merge operation is idempotent — for every ledger
state and every (name, parent, productId) triple, merging twice equals
merging once; in particular merging ("Vintage Lamps", "Home", "p1") twice
into an empty ledger yields a single record with `product_count = 1`. -/
theorem recordSuggestion_idempotent :
    (∀ (ledger : Ledger) (s : NewSuggestion) (pid : Option String),
      process_collection_suggestion s pid
        (process_collection_suggestion s pid ledger) =
        process_collection_suggestion s pid ledger) ∧
    (process_collection_suggestion
        ⟨"Vintage Lamps", "Home", "no existing fit"⟩ (some "p1")
        (process_collection_suggestion
          ⟨"Vintage Lamps", "Home", "no existing fit"⟩ (some "p1") [])).map
      CollectionSuggestionRow.product_count = [1] :=
  ⟨fun ledger s pid => process_collection_suggestion_idem s pid ledger,
   by decide⟩

/-! ## Classifier (ai_classifier.py) -/

/-- `self.max_retries` set in `AIClassifier.__init__`. -/
def max_retries : Nat := 3

/-- `self.retry_delay` set in `AIClassifier.__init__` (seconds). -/
def retry_delay : Nat := 2

/-- Description truncation before prompting (ai_classifier.py lines 46-47). -/
def truncate_description (d : String) : String :=
  if d.length > 2000 then d.take 2000 ++ "..." else d

/-- Candidate selection of `classify_product` (ai_classifier.py lines
22-31): level 3, else level 2, else level 1 (the variable is reassigned
on each fallback, mirrored by shadowing). -/
def pickCandidates (hier : List CollectionHierarchyRow) :
    List CollectionHierarchyRow :=
  let l3_collections := hier.filter (fun c => c.level == 3)
  let l3_collections :=
    if l3_collections.isEmpty then hier.filter (fun c => c.level == 2)
    else l3_collections
  let l3_collections :=
    if l3_collections.isEmpty then hier.filter (fun c => c.level == 1)
    else l3_collections
  l3_collections

/-- One entry of the `collection_list` embedded in the prompt
(ai_classifier.py lines 36-43): the id/title/path dict. -/
structure CandidateEntry where
  id : String
  title : String
  path : String
deriving DecidableEq, Repr

def toCandidate (c : CollectionHierarchyRow) : CandidateEntry :=
  { id := c.collection_id, title := c.title, path := c.full_path }

/-- The candidate list actually interpolated into the prompt:
`collection_list[:50]` (ai_classifier.py line 56). -/
def classifySent (hier : List CollectionHierarchyRow) : List CandidateEntry :=
  ((pickCandidates hier).map toCandidate).take 50

/-- The parsed JSON body of a successful model response.
`assigned_collections` is optional because the code re-inserts a `[]`
default when the key is missing (lines 96-97). -/
structure ModelResult where
  assigned_collections : Option (List Assignment)
  new_collection_suggestion : Option NewSuggestion
deriving DecidableEq, Repr

/-- One outcome of a `chat.completions.create` call: a parsed body, a
`RateLimitError`, an `APITimeoutError`, or a `JSONDecodeError` body. -/
inductive ApiResponse where
  | ok (result : ModelResult)
  | rateLimit
  | timeout
  | malformed
deriving DecidableEq, Repr

/-- The dict `classify_product` returns: the `error` key is present only
on the catch-all error path (lines 137-141). -/
structure ClassifyResult where
  assigned_collections : List Assignment
  new_collection_suggestion : Option NewSuggestion
  error : Option String
deriving DecidableEq, Repr

/-- Observable outcome of one `classify_product` call: the returned dict,
the suggestion table after its side effect, the candidate list sent to the
model, the backoff sleeps performed, and the number of model calls made. -/
structure ClassifyOut where
  result : ClassifyResult
  ledger : Ledger
  sent : List CandidateEntry
  sleeps : List Nat
  calls : Nat
deriving DecidableEq, Repr

/-- `AIClassifier.classify_product` (ai_classifier.py lines 18-144).  The
external model is an oracle from (title, truncated description, attempt
index) to a response.  The `raise` on an empty hierarchy and the `raise`
after exhausted retries are caught by the function's own outer handler
(lines 130-141), so they surface as an empty result carrying `error`. -/
def classify_product (oracle : String → String → Nat → ApiResponse)
    (hier : List CollectionHierarchyRow) (ledger : Ledger)
    (product_title product_description : String) (retry_count : Nat) :
    ClassifyOut :=
  if (pickCandidates hier).isEmpty then
    { result := { assigned_collections := [], new_collection_suggestion := none
                  error := some "No collections found in hierarchy" }
      ledger := ledger, sent := [], sleeps := [], calls := 0 }
  else
    match oracle product_title (truncate_description product_description)
        retry_count with
    | ApiResponse.ok result =>
      let ledger1 :=
        match result.new_collection_suggestion with
        | some sugg =>
          if sugg.suggested_name ≠ "" then
            process_collection_suggestion sugg none ledger
          else ledger
        | none => ledger
      { result := { assigned_collections := result.assigned_collections.getD []
                    new_collection_suggestion := result.new_collection_suggestion
                    error := none }
        ledger := ledger1, sent := classifySent hier, sleeps := [], calls := 1 }
    | ApiResponse.rateLimit =>
      if h : retry_count < max_retries then
        let rec_out := classify_product oracle hier ledger product_title
          (truncate_description product_description) (retry_count + 1)
        { rec_out with
          sent := classifySent hier
          sleeps := retry_delay * (retry_count + 1) :: rec_out.sleeps
          calls := rec_out.calls + 1 }
      else
        { result := { assigned_collections := []
                      new_collection_suggestion := none
                      error := some "OpenAI rate limit exceeded after retries" }
          ledger := ledger, sent := classifySent hier, sleeps := [], calls := 1 }
    | ApiResponse.timeout =>
      if h : retry_count < max_retries then
        let rec_out := classify_product oracle hier ledger product_title
          (truncate_description product_description) (retry_count + 1)
        { rec_out with
          sent := classifySent hier
          sleeps := retry_delay :: rec_out.sleeps
          calls := rec_out.calls + 1 }
      else
        { result := { assigned_collections := []
                      new_collection_suggestion := none
                      error := some "OpenAI API timeout after retries" }
          ledger := ledger, sent := classifySent hier, sleeps := [], calls := 1 }
    | ApiResponse.malformed =>
      { result := { assigned_collections := [], new_collection_suggestion := none
                    error := none }
        ledger := ledger, sent := classifySent hier, sleeps := [], calls := 1 }
termination_by max_retries - retry_count
decreasing_by all_goals omega

/-! ## Work Queue batch processor (ai_classifier.py `process_queue`) -/

/-- The row filter of the selection query (ai_classifier.py lines 189-192):
`status == 'pending'` and `retry_count < 3`. -/
def pendingSelectable (p : QueueEntry) : Bool :=
  p.status == "pending" && decide (p.retry_count < 3)

/-- The body of the `for product in pending_products` loop (ai_classifier.py
lines 194-251) for one entry: returns the updated entry, the updated
suggestion table and whether the entry counted as processed. -/
def processEntry (oracle : String → String → Nat → ApiResponse)
    (hier : List CollectionHierarchyRow) (now : Nat)
    (product : QueueEntry) (ledger : Ledger) :
    QueueEntry × Ledger × Bool :=
  if product.title = "" then
    ({ product with
        status := "error"
        error_message := some "Product has no title" }, ledger, false)
  else
    let out := classify_product oracle hier ledger product.title
      product.description 0
    if optTruthy out.result.error then
      ({ product with
          status := "error", error_message := out.result.error
          retry_count := product.retry_count + 1 }, out.ledger, false)
    else
      let assigned := out.result.assigned_collections
      let ledger1 :=
        match out.result.new_collection_suggestion with
        | some sugg =>
          if sugg.suggested_name ≠ "" then
            attachProductToSuggestion sugg.suggested_name product.product_id
              out.ledger
          else out.ledger
        | none => out.ledger
      ({ product with
          assigned_collections := assigned, status := "processed"
          processed_at := some now
          confidence_scores := assigned.map Assignment.confidence },
       ledger1, true)

/-- Outcome of one `process_queue` run. -/
structure BatchOut where
  queue : List QueueEntry
  ledger : Ledger
  processed_count : Nat
deriving DecidableEq, Repr

/-- The selection plus loop of `process_queue`: walk the table in order,
process an entry while the batch budget is positive and the entry matches
the selection filter, leave every other entry untouched. -/
def process_queue_loop (oracle : String → String → Nat → ApiResponse)
    (hier : List CollectionHierarchyRow) (now : Nat) :
    Nat → List QueueEntry → Ledger → BatchOut
  | _, [], ledger => { queue := [], ledger := ledger, processed_count := 0 }
  | budget, product :: rest, ledger =>
    if budget ≠ 0 ∧ pendingSelectable product = true then
      let step := processEntry oracle hier now product ledger
      let restOut := process_queue_loop oracle hier now (budget - 1) rest
        step.2.1
      { queue := step.1 :: restOut.queue
        ledger := restOut.ledger
        processed_count := (if step.2.2 then 1 else 0) +
          restOut.processed_count }
    else
      let restOut := process_queue_loop oracle hier now budget rest ledger
      { queue := product :: restOut.queue, ledger := restOut.ledger
        processed_count := restOut.processed_count }

/-- `AIClassifier.process_queue` (ai_classifier.py lines 182-259). -/
def process_queue (oracle : String → String → Nat → ApiResponse)
    (hier : List CollectionHierarchyRow) (now batch_size : Nat)
    (queue : List QueueEntry) (ledger : Ledger) : BatchOut :=
  process_queue_loop oracle hier now batch_size queue ledger

/-! ### Classifier lemmas -/

/-- The spec's candidate-selection rule, stated the way the spec words it:
the deepest populated level — level 3 if non-empty, else level 2, else
level 1. -/
def specDeepestLevel (hier : List CollectionHierarchyRow) :
    List CollectionHierarchyRow :=
  if hier.filter (fun c => c.level == 3) ≠ [] then
    hier.filter (fun c => c.level == 3)
  else if hier.filter (fun c => c.level == 2) ≠ [] then
    hier.filter (fun c => c.level == 2)
  else hier.filter (fun c => c.level == 1)

theorem pickCandidates_eq_spec (hier : List CollectionHierarchyRow) :
    pickCandidates hier = specDeepestLevel hier := by
  unfold pickCandidates specDeepestLevel
  by_cases h3 : hier.filter (fun c => c.level == 3) = []
  · by_cases h2 : hier.filter (fun c => c.level == 2) = [] <;>
      simp [h3, h2, List.isEmpty_iff]
  · simp [h3, List.isEmpty_iff]

theorem classify_product_sent (oracle : String → String → Nat → ApiResponse)
    (hier : List CollectionHierarchyRow) (ledger : Ledger)
    (t d : String) (rc : Nat) :
    (classify_product oracle hier ledger t d rc).sent =
      if (pickCandidates hier).isEmpty then [] else classifySent hier := by
  rw [classify_product.eq_def]
  by_cases hemp : (pickCandidates hier).isEmpty
  · simp [hemp]
  · simp only [if_neg hemp, Bool.not_eq_true] at *
    cases horacle : oracle t (truncate_description d) rc with
    | ok r => simp
    | rateLimit =>
      by_cases h : rc < max_retries
      · simp [dif_pos h]
      · simp [dif_neg h]
    | timeout =>
      by_cases h : rc < max_retries
      · simp [dif_pos h]
      · simp [dif_neg h]
    | malformed => simp

theorem classify_product_empty_hier
    (oracle : String → String → Nat → ApiResponse)
    (hier : List CollectionHierarchyRow) (ledger : Ledger)
    (t d : String) (rc : Nat) (hemp : (pickCandidates hier).isEmpty = true) :
    classify_product oracle hier ledger t d rc =
      { result := { assigned_collections := []
                    new_collection_suggestion := none
                    error := some "No collections found in hierarchy" }
        ledger := ledger, sent := [], sleeps := [], calls := 0 } := by
  rw [classify_product.eq_def, if_pos hemp]

/-- C6: classification builds its candidate list from the deepest populated
hierarchy level (3, else 2, else 1), sends at most the first 50 candidates
to the model, and when all three levels are empty it returns the empty
result annotated with the no-hierarchy error text instead of raising. -/
theorem classification_candidate_selection
    (oracle : String → String → Nat → ApiResponse)
    (hier : List CollectionHierarchyRow) (ledger : Ledger)
    (t d : String) (rc : Nat) :
    (classify_product oracle hier ledger t d rc).sent =
      ((specDeepestLevel hier).map toCandidate).take 50
    ∧ (classify_product oracle hier ledger t d rc).sent.length ≤ 50
    ∧ (hier.filter (fun c => c.level == 3) = [] →
       hier.filter (fun c => c.level == 2) = [] →
       hier.filter (fun c => c.level == 1) = [] →
       classify_product oracle hier ledger t d rc =
         { result := { assigned_collections := []
                       new_collection_suggestion := none
                       error := some "No collections found in hierarchy" }
           ledger := ledger, sent := [], sleeps := [], calls := 0 }) := by
  have hsent := classify_product_sent oracle hier ledger t d rc
  have hpick := pickCandidates_eq_spec hier
  refine ⟨?_, ?_, ?_⟩
  · rw [hsent]
    by_cases hemp : (pickCandidates hier).isEmpty
    · rw [if_pos hemp]
      rw [List.isEmpty_iff] at hemp
      rw [← hpick, hemp]
      simp
    · rw [if_neg hemp, classifySent, hpick]
  · rw [hsent]
    by_cases hemp : (pickCandidates hier).isEmpty
    · simp [hemp]
    · simp only [if_neg hemp, classifySent]
      exact le_trans (List.length_take_le _ _) le_rfl
  · intro h3 h2 h1
    apply classify_product_empty_hier
    rw [hpick]
    simp [specDeepestLevel, h3, h2, h1]

/-- Witness for C6: with an entirely empty hierarchy the classifier
returns the annotated empty result without calling the model. -/
theorem classification_candidate_selection_witness :
    classify_product (fun _ _ _ => ApiResponse.malformed) [] [] "Lamp" "d" 0 =
      { result := { assigned_collections := []
                    new_collection_suggestion := none
                    error := some "No collections found in hierarchy" }
        ledger := [], sent := [], sleeps := [], calls := 0 } :=
  (classification_candidate_selection
    (fun _ _ _ => ApiResponse.malformed) [] [] "Lamp" "d" 0).2.2 rfl rfl rfl

theorem classify_product_calls_le
    (oracle : String → String → Nat → ApiResponse)
    (hier : List CollectionHierarchyRow) (ledger : Ledger) (t : String) :
    ∀ (n : Nat) (d : String) (rc : Nat), max_retries - rc ≤ n →
      (classify_product oracle hier ledger t d rc).calls ≤ n + 1 := by
  intro n
  induction n with
  | zero =>
    intro d rc hle
    rw [classify_product.eq_def]
    by_cases hemp : (pickCandidates hier).isEmpty
    · simp [hemp]
    · rw [if_neg hemp]
      have hrc : ¬ rc < max_retries := by omega
      cases oracle t (truncate_description d) rc <;> simp [dif_neg hrc]
  | succ n ih =>
    intro d rc hle
    rw [classify_product.eq_def]
    by_cases hemp : (pickCandidates hier).isEmpty
    · simp [hemp]
    · rw [if_neg hemp]
      cases oracle t (truncate_description d) rc with
      | ok r => simp
      | rateLimit =>
        by_cases h : rc < max_retries
        · simp only [dif_pos h]
          have := ih (truncate_description d) (rc + 1) (by omega)
          simpa using Nat.add_le_add_right this 1
        · simp [dif_neg h]
      | timeout =>
        by_cases h : rc < max_retries
        · simp only [dif_pos h]
          have := ih (truncate_description d) (rc + 1) (by omega)
          simpa using Nat.add_le_add_right this 1
        · simp [dif_neg h]
      | malformed => simp

/-- C7: for every classification call, on rate-limit signals the call is
retried at most 3 times with linearly increasing backoff
(`retry_delay * attempt`), on timeout signals at most 3 times with a
constant backoff, and after exhausting the retries it terminates with the
named rate-limit / timeout error rather than retrying indefinitely; in
all cases at most `max_retries + 1` model calls are made. -/
theorem classifier_retry_policy
    (oracle : String → String → Nat → ApiResponse)
    (hier : List CollectionHierarchyRow) (ledger : Ledger) (t d : String) :
    (classify_product oracle hier ledger t d 0).calls ≤ max_retries + 1
    ∧ ((pickCandidates hier).isEmpty = false →
       (∀ d' n, oracle t d' n = ApiResponse.rateLimit) →
       (classify_product oracle hier ledger t d 0).result.error =
           some "OpenAI rate limit exceeded after retries"
         ∧ (classify_product oracle hier ledger t d 0).sleeps =
           [retry_delay * 1, retry_delay * 2, retry_delay * 3]
         ∧ (classify_product oracle hier ledger t d 0).calls = max_retries + 1)
    ∧ ((pickCandidates hier).isEmpty = false →
       (∀ d' n, oracle t d' n = ApiResponse.timeout) →
       (classify_product oracle hier ledger t d 0).result.error =
           some "OpenAI API timeout after retries"
         ∧ (classify_product oracle hier ledger t d 0).sleeps =
           [retry_delay, retry_delay, retry_delay]
         ∧ (classify_product oracle hier ledger t d 0).calls =
           max_retries + 1) := by
  refine ⟨?_, ?_, ?_⟩
  · simpa using
      classify_product_calls_le oracle hier ledger t max_retries d 0 (by omega)
  · intro hne ho
    have hif : ¬ ((pickCandidates hier).isEmpty = true) := by simp [hne]
    have h3 : ∀ d', classify_product oracle hier ledger t d' max_retries =
        { result := { assigned_collections := []
                      new_collection_suggestion := none
                      error := some "OpenAI rate limit exceeded after retries" }
          ledger := ledger, sent := classifySent hier, sleeps := []
          calls := 1 } := by
      intro d'
      rw [classify_product.eq_def, if_neg hif, ho]
      simp
    have h2 : ∀ d', classify_product oracle hier ledger t d' 2 =
        { result := { assigned_collections := []
                      new_collection_suggestion := none
                      error := some "OpenAI rate limit exceeded after retries" }
          ledger := ledger, sent := classifySent hier
          sleeps := [retry_delay * 3], calls := 2 } := by
      intro d'
      rw [classify_product.eq_def, if_neg hif]
      simp only [ho]
      have : (2 : Nat) < max_retries := by decide
      rw [dif_pos this]
      have := h3 (truncate_description d')
      simp only [max_retries] at this
      simp [this]
    have h1 : ∀ d', classify_product oracle hier ledger t d' 1 =
        { result := { assigned_collections := []
                      new_collection_suggestion := none
                      error := some "OpenAI rate limit exceeded after retries" }
          ledger := ledger, sent := classifySent hier
          sleeps := [retry_delay * 2, retry_delay * 3], calls := 3 } := by
      intro d'
      rw [classify_product.eq_def, if_neg hif]
      simp only [ho]
      have : (1 : Nat) < max_retries := by decide
      rw [dif_pos this]
      simp [h2 (truncate_description d')]
    have h0 : classify_product oracle hier ledger t d 0 =
        { result := { assigned_collections := []
                      new_collection_suggestion := none
                      error := some "OpenAI rate limit exceeded after retries" }
          ledger := ledger, sent := classifySent hier
          sleeps := [retry_delay * 1, retry_delay * 2, retry_delay * 3]
          calls := 4 } := by
      rw [classify_product.eq_def, if_neg hif]
      simp only [ho]
      have : (0 : Nat) < max_retries := by decide
      rw [dif_pos this]
      simp [h1 (truncate_description d)]
    rw [h0]
    refine ⟨rfl, rfl, by simp [max_retries]⟩
  · intro hne ho
    have hif : ¬ ((pickCandidates hier).isEmpty = true) := by simp [hne]
    have h3 : ∀ d', classify_product oracle hier ledger t d' max_retries =
        { result := { assigned_collections := []
                      new_collection_suggestion := none
                      error := some "OpenAI API timeout after retries" }
          ledger := ledger, sent := classifySent hier, sleeps := []
          calls := 1 } := by
      intro d'
      rw [classify_product.eq_def, if_neg hif, ho]
      simp
    have h2 : ∀ d', classify_product oracle hier ledger t d' 2 =
        { result := { assigned_collections := []
                      new_collection_suggestion := none
                      error := some "OpenAI API timeout after retries" }
          ledger := ledger, sent := classifySent hier
          sleeps := [retry_delay], calls := 2 } := by
      intro d'
      rw [classify_product.eq_def, if_neg hif]
      simp only [ho]
      have : (2 : Nat) < max_retries := by decide
      rw [dif_pos this]
      have := h3 (truncate_description d')
      simp only [max_retries] at this
      simp [this]
    have h1 : ∀ d', classify_product oracle hier ledger t d' 1 =
        { result := { assigned_collections := []
                      new_collection_suggestion := none
                      error := some "OpenAI API timeout after retries" }
          ledger := ledger, sent := classifySent hier
          sleeps := [retry_delay, retry_delay], calls := 3 } := by
      intro d'
      rw [classify_product.eq_def, if_neg hif]
      simp only [ho]
      have : (1 : Nat) < max_retries := by decide
      rw [dif_pos this]
      simp [h2 (truncate_description d')]
    have h0 : classify_product oracle hier ledger t d 0 =
        { result := { assigned_collections := []
                      new_collection_suggestion := none
                      error := some "OpenAI API timeout after retries" }
          ledger := ledger, sent := classifySent hier
          sleeps := [retry_delay, retry_delay, retry_delay]
          calls := 4 } := by
      rw [classify_product.eq_def, if_neg hif]
      simp only [ho]
      have : (0 : Nat) < max_retries := by decide
      rw [dif_pos this]
      simp [h1 (truncate_description d)]
    rw [h0]
    refine ⟨rfl, rfl, by simp [max_retries]⟩

/-- A one-row level-3 hierarchy used by concrete witnesses. -/
def witnessHier : List CollectionHierarchyRow :=
  [{ collection_id := "c1", title := "Men > Shoes > Running", level := 3
     full_path := "Men > Shoes > Running" }]

/-- Witness for C7: with a model that always rate-limits, a call over a
one-row hierarchy sleeps 2, 4, 6 seconds and ends with the named error. -/
theorem classifier_retry_policy_witness :
    (classify_product (fun _ _ _ => ApiResponse.rateLimit) witnessHier []
      "Lamp" "d" 0).sleeps = [2, 4, 6] ∧
    (classify_product (fun _ _ _ => ApiResponse.rateLimit) witnessHier []
      "Lamp" "d" 0).result.error =
      some "OpenAI rate limit exceeded after retries" := by
  have h := (classifier_retry_policy (fun _ _ _ => ApiResponse.rateLimit)
    witnessHier [] "Lamp" "d").2.1 (by decide) (fun _ _ => rfl)
  refine ⟨?_, h.1⟩
  rw [h.2.1]
  decide

/-! ### Queue error-state invariants (C1) -/

/-- The invariant as the spec states it: `status='error'` implies
`error_message` is non-empty and `retry_count >= 1`. -/
def ClaimedErrorInv (p : QueueEntry) : Prop :=
  p.status = "error" → optTruthy p.error_message = true ∧ 1 ≤ p.retry_count

instance (p : QueueEntry) : Decidable (ClaimedErrorInv p) := by
  unfold ClaimedErrorInv; infer_instance

/-- The invariant the code actually maintains: an error entry carries a
non-empty message, and its retry counter is at least 1 unless the error is
the empty-title validation error, whose path leaves the counter untouched. -/
def AmendedErrorInv (p : QueueEntry) : Prop :=
  p.status = "error" → optTruthy p.error_message = true ∧
    (1 ≤ p.retry_count ∨ p.error_message = some "Product has no title")

instance (p : QueueEntry) : Decidable (AmendedErrorInv p) := by
  unfold AmendedErrorInv; infer_instance

theorem processEntry_amendedErrorInv
    (oracle : String → String → Nat → ApiResponse)
    (hier : List CollectionHierarchyRow) (now : Nat)
    (q : QueueEntry) (ledger : Ledger) :
    AmendedErrorInv (processEntry oracle hier now q ledger).1 := by
  by_cases ht : q.title = ""
  · simp only [processEntry, if_pos ht]
    exact fun _ => ⟨rfl, Or.inr rfl⟩
  · by_cases herr : optTruthy (classify_product oracle hier ledger q.title
      q.description 0).result.error = true
    · simp only [processEntry, if_neg ht, herr, if_true]
      exact fun _ => ⟨herr, Or.inl (Nat.le_add_left 1 _)⟩
    · simp only [processEntry, if_neg ht, herr, if_false, Bool.false_eq_true]
      intro hst
      exact absurd hst (by decide : ¬ ("processed" : String) = "error")

theorem process_queue_loop_amendedErrorInv
    (oracle : String → String → Nat → ApiResponse)
    (hier : List CollectionHierarchyRow) (now : Nat) :
    ∀ (queue : List QueueEntry) (budget : Nat) (ledger : Ledger),
      (∀ p ∈ queue, AmendedErrorInv p) →
      ∀ p ∈ (process_queue_loop oracle hier now budget queue ledger).queue,
        AmendedErrorInv p := by
  intro queue
  induction queue with
  | nil => intro budget ledger h p hp; simp [process_queue_loop] at hp
  | cons q rest ih =>
    intro budget ledger h p hp
    by_cases hsel : budget ≠ 0 ∧ pendingSelectable q = true
    · simp only [process_queue_loop, if_pos hsel, List.mem_cons] at hp
      rcases hp with hp | hp
      · exact hp ▸ processEntry_amendedErrorInv oracle hier now q ledger
      · exact ih _ _ (fun r hr => h r (by simp [hr])) p hp
    · simp only [process_queue_loop, if_neg hsel, List.mem_cons] at hp
      rcases hp with hp | hp
      · subst hp; exact h _ (by simp)
      · exact ih _ _ (fun r hr => h r (by simp [hr])) p hp

/-- The queue entry that refutes C1 as stated: a pending product whose
title is empty and whose retry counter is 0. -/
def emptyTitleEntry : QueueEntry :=
  { product_id := "p1", title := "", description := "", status := "pending"
    processed_at := none, assigned_collections := [], error_message := none
    retry_count := 0, applied := false, confidence_scores := [] }

/-- Counterexample to C1 as stated: starting from a queue satisfying the
claimed invariant, one `process_queue` run marks the empty-title entry
`error` with `retry_count = 0`, violating `retry_count >= 1`. -/
theorem process_queue_error_entries_counterexample :
    (∀ p ∈ [emptyTitleEntry], ClaimedErrorInv p) ∧
    ¬ (∀ p ∈ (process_queue (fun _ _ _ => ApiResponse.malformed) [] 0 10
        [emptyTitleEntry] []).queue, ClaimedErrorInv p) := by
  constructor
  · decide
  · decide

/-- C1 (amended): after any run of `process_queue`, every entry with
status 'error' has a non-empty `error_message`, and `retry_count >= 1`
unless the error is the empty-title validation error
"Product has no title", whose path leaves the counter untouched —
provided every entry satisfied this invariant beforehand. -/
theorem process_queue_error_entries_amended
    (oracle : String → String → Nat → ApiResponse)
    (hier : List CollectionHierarchyRow) (now batch_size : Nat)
    (queue : List QueueEntry) (ledger : Ledger)
    (h : ∀ p ∈ queue, AmendedErrorInv p) :
    ∀ p ∈ (process_queue oracle hier now batch_size queue ledger).queue,
      AmendedErrorInv p :=
  process_queue_loop_amendedErrorInv oracle hier now queue batch_size ledger h

/-- Witness for the amended C1 on a concrete run over the empty-title
entry. -/
theorem process_queue_error_entries_amended_witness :
    (∀ p ∈ [emptyTitleEntry], AmendedErrorInv p) ∧
    (∀ p ∈ (process_queue (fun _ _ _ => ApiResponse.malformed) [] 0 10
        [emptyTitleEntry] []).queue, AmendedErrorInv p) :=
  ⟨by decide,
   process_queue_error_entries_amended (fun _ _ _ => ApiResponse.malformed)
     [] 0 10 [emptyTitleEntry] [] (by decide)⟩

/-! ### Suggestion attachment during batch processing (C2) -/

theorem attachProductToSuggestion_cons
    (name pid : String) (existing : CollectionSuggestionRow) (rest : Ledger) :
    attachProductToSuggestion name pid (existing :: rest) =
      if existing.suggested_name = name then
        (if pid ∉ existing.product_ids then
          { existing with
            product_ids := existing.product_ids ++ [pid]
            product_count := (existing.product_ids ++ [pid]).length }
         else existing) :: rest
      else existing :: attachProductToSuggestion name pid rest := by
  simp only [attachProductToSuggestion]

theorem findSuggestionByName_process_collection_suggestion
    (s : NewSuggestion) (pid : Option String) (ledger : Ledger) :
    (findSuggestionByName (process_collection_suggestion s pid ledger)
      s.suggested_name).isSome = true := by
  induction ledger with
  | nil =>
    simp only [process_collection_suggestion, findSuggestionByName]
    rw [List.find?_cons_of_pos _ (by simp [newSuggestionRow])]
    rfl
  | cons existing rest ih =>
    rw [process_collection_suggestion_cons]
    by_cases hname : existing.suggested_name = s.suggested_name
    · rw [if_pos hname]
      unfold findSuggestionByName
      rw [List.find?_cons_of_pos _
        (by by_cases hcond : optTruthy pid = true ∧
              pid.getD "" ∉ existing.product_ids <;> simp [hcond, hname])]
      rfl
    · rw [if_neg hname]
      unfold findSuggestionByName at ih ⊢
      rw [List.find?_cons_of_neg _ (by simp [hname])]
      exact ih

theorem findSuggestionByName_attach
    (name pid : String) (ledger : Ledger)
    (h : (findSuggestionByName ledger name).isSome = true) :
    ∃ r, findSuggestionByName (attachProductToSuggestion name pid ledger)
        name = some r ∧ pid ∈ r.product_ids := by
  induction ledger with
  | nil => simp [findSuggestionByName] at h
  | cons existing rest ih =>
    rw [attachProductToSuggestion_cons]
    by_cases hname : existing.suggested_name = name
    · rw [if_pos hname]
      by_cases hmem : pid ∉ existing.product_ids
      · rw [if_pos hmem]
        refine ⟨{ existing with
            product_ids := existing.product_ids ++ [pid]
            product_count := (existing.product_ids ++ [pid]).length }, ?_, ?_⟩
        · unfold findSuggestionByName
          exact List.find?_cons_of_pos _ (by simp [hname])
        · simp
      · rw [if_neg hmem]
        refine ⟨existing, ?_, not_not.mp hmem⟩
        unfold findSuggestionByName
        exact List.find?_cons_of_pos _ (by simp [hname])
    · rw [if_neg hname]
      unfold findSuggestionByName at h ih ⊢
      rw [List.find?_cons_of_neg _ (by simp [hname])] at h
      obtain ⟨r, hr, hpid⟩ := ih h
      exact ⟨r, by rw [List.find?_cons_of_neg _ (by simp [hname])]; exact hr,
        hpid⟩

theorem classify_product_suggestion_sideeffect
    (oracle : String → String → Nat → ApiResponse)
    (hier : List CollectionHierarchyRow) (t : String) :
    ∀ (n : Nat) (d : String) (rc : Nat) (ledger : Ledger)
      (sugg : NewSuggestion), max_retries - rc ≤ n →
      (classify_product oracle hier ledger t d rc).result.error = none →
      (classify_product oracle hier ledger t d rc).result.new_collection_suggestion
        = some sugg →
      sugg.suggested_name ≠ "" →
      (findSuggestionByName (classify_product oracle hier ledger t d rc).ledger
        sugg.suggested_name).isSome = true := by
  intro n
  induction n with
  | zero =>
    intro d rc ledger sugg hle herr hsugg hname
    rw [classify_product.eq_def] at herr hsugg ⊢
    by_cases hemp : (pickCandidates hier).isEmpty
    · rw [if_pos hemp] at herr
      simp at herr
    · rw [if_neg hemp] at herr hsugg ⊢
      have hrc : ¬ rc < max_retries := by omega
      cases horacle : oracle t (truncate_description d) rc with
      | ok r =>
        rw [horacle] at hsugg
        have hs : r.new_collection_suggestion = some sugg := by
          simpa using hsugg
        simp only [hs]
        rw [if_pos hname]
        exact findSuggestionByName_process_collection_suggestion sugg none
          ledger
      | rateLimit =>
        rw [horacle] at herr
        simp [dif_neg hrc] at herr
      | timeout =>
        rw [horacle] at herr
        simp [dif_neg hrc] at herr
      | malformed =>
        rw [horacle] at hsugg
        simp at hsugg
  | succ n ih =>
    intro d rc ledger sugg hle herr hsugg hname
    rw [classify_product.eq_def] at herr hsugg ⊢
    by_cases hemp : (pickCandidates hier).isEmpty
    · rw [if_pos hemp] at herr
      simp at herr
    · rw [if_neg hemp] at herr hsugg ⊢
      cases horacle : oracle t (truncate_description d) rc with
      | ok r =>
        rw [horacle] at hsugg
        have hs : r.new_collection_suggestion = some sugg := by
          simpa using hsugg
        simp only [hs]
        rw [if_pos hname]
        exact findSuggestionByName_process_collection_suggestion sugg none
          ledger
      | rateLimit =>
        rw [horacle] at herr hsugg
        by_cases hrc : rc < max_retries
        · simp only [dif_pos hrc] at herr hsugg ⊢
          exact ih (truncate_description d) (rc + 1) ledger sugg (by omega)
            herr hsugg hname
        · simp [dif_neg hrc] at herr
      | timeout =>
        rw [horacle] at herr hsugg
        by_cases hrc : rc < max_retries
        · simp only [dif_pos hrc] at herr hsugg ⊢
          exact ih (truncate_description d) (rc + 1) ledger sugg (by omega)
            herr hsugg hname
        · simp [dif_neg hrc] at herr
      | malformed =>
        rw [horacle] at hsugg
        simp at hsugg

/-- C2: in the batch processor's per-entry step, whenever the
classification result carries a non-empty new-category suggestion and no
error, the entry's product id is attached to the Suggestion Ledger record
of that suggested name; the record exists at that point even when none
existed before (the Classifier's own merge creates it without the id). -/
theorem batch_attaches_product_to_suggestion
    (oracle : String → String → Nat → ApiResponse)
    (hier : List CollectionHierarchyRow) (now : Nat)
    (product : QueueEntry) (ledger : Ledger) (sugg : NewSuggestion)
    (htitle : ¬ product.title = "")
    (herr : (classify_product oracle hier ledger product.title
      product.description 0).result.error = none)
    (hsugg : (classify_product oracle hier ledger product.title
      product.description 0).result.new_collection_suggestion = some sugg)
    (hname : sugg.suggested_name ≠ "") :
    ∃ r, findSuggestionByName
        (processEntry oracle hier now product ledger).2.1
        sugg.suggested_name = some r ∧
      product.product_id ∈ r.product_ids := by
  have hfound := classify_product_suggestion_sideeffect oracle hier
    product.title max_retries product.description 0 ledger sugg (by omega)
    herr hsugg hname
  have hopt : optTruthy (classify_product oracle hier ledger product.title
      product.description 0).result.error = false := by
    rw [herr]; rfl
  simp only [processEntry, if_neg htitle, hopt, Bool.false_eq_true, if_false,
    hsugg]
  rw [if_pos hname]
  exact findSuggestionByName_attach sugg.suggested_name product.product_id
    _ hfound

/-- The concrete suggestion used by the C2 witness. -/
def lampSuggestion : NewSuggestion :=
  { suggested_name := "Vintage Lamps", parent_collection := "Home"
    reason := "distinctive niche" }

/-- A model oracle that always answers with no assignment and the
"Vintage Lamps" suggestion. -/
def suggestingOracle : String → String → Nat → ApiResponse :=
  fun _ _ _ => ApiResponse.ok
    { assigned_collections := some []
      new_collection_suggestion := some lampSuggestion }

/-- The queue entry used by the C2 witness. -/
def lampEntry : QueueEntry :=
  { product_id := "p9", title := "Vintage lamp", description := ""
    status := "pending", processed_at := none, assigned_collections := []
    error_message := none, retry_count := 0, applied := false
    confidence_scores := [] }

/-- Witness for C2: processing the lamp entry attaches "p9" to the
"Vintage Lamps" record even though the ledger started empty. -/
theorem batch_attaches_product_to_suggestion_witness :
    ∃ r, findSuggestionByName
        (processEntry suggestingOracle witnessHier 7 lampEntry []).2.1
        "Vintage Lamps" = some r ∧ "p9" ∈ r.product_ids := by
  have hc : classify_product suggestingOracle witnessHier [] lampEntry.title
      lampEntry.description 0 =
      { result := { assigned_collections := []
                    new_collection_suggestion := some lampSuggestion
                    error := none }
        ledger := [newSuggestionRow lampSuggestion none]
        sent := classifySent witnessHier, sleeps := [], calls := 1 } := by
    rw [classify_product.eq_def]
    rw [if_neg (by decide)]
    simp [suggestingOracle, lampSuggestion, process_collection_suggestion,
      newSuggestionRow]
  have h2 := batch_attaches_product_to_suggestion suggestingOracle
    witnessHier 7 lampEntry [] lampSuggestion (by decide)
    (by rw [hc]) (by rw [hc]) (by decide)
  exact h2

/-! ## Reconciler (shopify_client.py) -/

/-- The external catalog's product-to-collection membership records
(`Collect` rows): (product_id, collection_id) pairs. -/
abbrev Catalog := List (String × String)

/-- `ShopifyClient.get_product_current_collections` (shopify_client.py
lines 167-174): all collection ids of the product's Collect rows. -/
def get_product_current_collections (cat : Catalog) (product_id : String) :
    List String :=
  (cat.filter (fun m => m.1 == product_id)).map (fun m => m.2)

/-- The `level_map` dict passed to `update_product_collections`, as an
association list. -/
abbrev LevelMap := List (String × Nat)

/-- `level_map.get(cid)`. -/
def lmGet (lm : LevelMap) (cid : String) : Option Nat :=
  (lm.find? (fun e => e.1 == cid)).map (fun e => e.2)

/-- Python truthiness of the optional `level_map` argument (`None` and the
empty dict are falsy). -/
def lmTruthy : Option LevelMap → Bool
  | none => false
  | some lm => !lm.isEmpty

/-- The guard `level_map and level_map.get(cid) == 3` of the add loop
(shopify_client.py line 192). -/
def lmIsL3 (level_map : Option LevelMap) (cid : String) : Bool :=
  match level_map with
  | none => false
  | some lm => !lm.isEmpty && lmGet lm cid == some 3

/-- `l3_current` initialisation (shopify_client.py lines 187-188). -/
def initialL3Count (level_map : Option LevelMap)
    (current_ids : List String) : Nat :=
  match level_map with
  | none => 0
  | some lm =>
    if lm.isEmpty then 0
    else (current_ids.filter (fun cid => lmGet lm cid == some 3)).length

/-- The `allowed_add` loop (shopify_client.py lines 190-197): walk the
candidates carrying the running L3 count; add an L3 candidate only while
the count is below `max_l3`, always add a non-L3 candidate. -/
def computeAllowedAdd (level_map : Option LevelMap) (max_l3 : Nat) :
    List String → Nat → List String
  | [], _ => []
  | cid :: rest, l3_current =>
    if lmIsL3 level_map cid then
      if l3_current < max_l3 then
        cid :: computeAllowedAdd level_map max_l3 rest (l3_current + 1)
      else computeAllowedAdd level_map max_l3 rest l3_current
    else cid :: computeAllowedAdd level_map max_l3 rest l3_current

/-- The save loop (shopify_client.py lines 199-204): one `collect.save()`
per accepted id; a failing save raises, leaving the writes already made in
place and the rest unwritten. `writeOk` is the external catalog's
per-write success oracle. -/
def performSaves (writeOk : String → String → Bool) (product_id : String) :
    List String → Catalog → Catalog × Option String
  | [], cat => (cat, none)
  | cid :: rest, cat =>
    if writeOk product_id cid then
      performSaves writeOk product_id rest (cat ++ [(product_id, cid)])
    else (cat, some "Failed to save collect")

/-- `current_ids = set(self.get_product_current_collections(product_id))`
(shopify_client.py line 182). -/
def currentIdsOf (cat : Catalog) (product_id : String) : List String :=
  (get_product_current_collections cat product_id).dedup

/-- `to_add = [cid for cid in target_collection_ids if cid not in
current_ids]` (shopify_client.py line 183). -/
def toAddOf (cat : Catalog) (product_id : String)
    (target_collection_ids : List String) : List String :=
  target_collection_ids.filter
    (fun cid => decide (cid ∉ currentIdsOf cat product_id))

/-- The `allowed_add` list of `update_product_collections`
(shopify_client.py lines 186-197). -/
def allowedAddOf (cat : Catalog) (product_id : String)
    (target_collection_ids : List String) (level_map : Option LevelMap)
    (max_l3 : Nat) : List String :=
  computeAllowedAdd level_map max_l3
    (toAddOf cat product_id target_collection_ids)
    (initialL3Count level_map (currentIdsOf cat product_id))

/-- `ShopifyClient.update_product_collections` (shopify_client.py lines
176-218).  An exception from a failing save surfaces as `Except.error`
together with the catalog as mutated so far; the cleanup `destroy` calls
remove every Collect row of the removed ids. -/
def update_product_collections (writeOk : String → String → Bool)
    (cat : Catalog) (product_id : String)
    (target_collection_ids : List String) (level_map : Option LevelMap)
    (max_l3 : Nat) (cleanup : Bool) : Catalog × Except String Bool :=
  let allowed_add :=
    allowedAddOf cat product_id target_collection_ids level_map max_l3
  match performSaves writeOk product_id allowed_add cat with
  | (cat1, some e) => (cat1, Except.error e)
  | (cat1, none) =>
    if cleanup && lmTruthy level_map then
      let l3_ids := (currentIdsOf cat1 product_id).filter
        (fun cid => lmGet (level_map.getD []) cid == some 3)
      if l3_ids.length > max_l3 then
        let keep := (target_collection_ids.take max_l3).dedup
        let remove_ids := (l3_ids.filter
          (fun cid => decide (cid ∉ keep))).take (l3_ids.length - max_l3)
        (cat1.filter (fun m =>
          !(m.1 == product_id && remove_ids.contains m.2)),
         Except.ok true)
      else (cat1, Except.ok true)
    else (cat1, Except.ok true)

/-! ### L3-cap lemmas (C8) -/

theorem computeAllowedAdd_nonl3_mem (level_map : Option LevelMap)
    (max_l3 : Nat) (cid : String) :
    ∀ (l : List String) (l3c : Nat), cid ∈ l →
      lmIsL3 level_map cid = false →
      cid ∈ computeAllowedAdd level_map max_l3 l l3c := by
  intro l
  induction l with
  | nil => intro l3c h; simp at h
  | cons a rest ih =>
    intro l3c hmem hl3
    rcases List.mem_cons.mp hmem with hmem | hmem
    · subst hmem
      simp only [computeAllowedAdd, hl3, Bool.false_eq_true, if_false]
      simp
    · by_cases ha : lmIsL3 level_map a = true
      · by_cases hc : l3c < max_l3
        · simp only [computeAllowedAdd, ha, if_true, if_pos hc]
          exact List.mem_cons_of_mem _ (ih (l3c + 1) hmem hl3)
        · simp only [computeAllowedAdd, ha, if_true, if_neg hc]
          exact ih l3c hmem hl3
      · simp only [computeAllowedAdd, Bool.not_eq_true] at ha
        simp only [computeAllowedAdd, ha, Bool.false_eq_true, if_false]
        exact List.mem_cons_of_mem _ (ih l3c hmem hl3)

theorem computeAllowedAdd_l3_count (level_map : Option LevelMap)
    (max_l3 : Nat) :
    ∀ (l : List String) (l3c : Nat),
      ((computeAllowedAdd level_map max_l3 l l3c).filter
        (lmIsL3 level_map)).length =
      min ((l.filter (lmIsL3 level_map)).length)
        (max_l3 - min l3c max_l3) := by
  intro l
  induction l with
  | nil => intro l3c; simp [computeAllowedAdd]
  | cons a rest ih =>
    intro l3c
    by_cases ha : lmIsL3 level_map a = true
    · by_cases hc : l3c < max_l3
      · simp only [computeAllowedAdd, ha, if_true, if_pos hc,
          List.filter_cons]
        simp only [ha, if_true, List.length_cons]
        rw [ih (l3c + 1)]
        omega
      · simp only [computeAllowedAdd, ha, if_true, if_neg hc,
          List.filter_cons]
        simp only [ha, if_true, List.length_cons]
        rw [ih l3c]
        omega
    · simp only [Bool.not_eq_true] at ha
      simp only [computeAllowedAdd, ha, Bool.false_eq_true, if_false,
        List.filter_cons]
      rw [ih l3c]

theorem performSaves_all_ok (writeOk : String → String → Bool)
    (product_id : String) :
    ∀ (l : List String) (cat : Catalog),
      (∀ cid ∈ l, writeOk product_id cid = true) →
      performSaves writeOk product_id l cat =
        (cat ++ l.map (fun cid => (product_id, cid)), none) := by
  intro l
  induction l with
  | nil => intro cat _; simp [performSaves]
  | cons a rest ih =>
    intro cat h
    simp only [performSaves, h a (by simp), if_true]
    rw [ih _ (fun cid hc => h cid (by simp [hc]))]
    simp

/-- C8: in the Reconciler's apply operation, every non-level-3 candidate
not already present is added; a level-3 candidate is added only while the
running level-3 count (current L3 memberships plus L3 additions so far)
is below `max_l3` — so the number of L3 additions is exactly the remaining
budget or the number of L3 candidates, whichever is smaller; with all
writes succeeding and no cleanup, the catalog gains exactly the accepted
additions.  On the spec's example (A, B level 3, C level 1, maxL3 = 1,
current {A}, target [B, C]) the memberships end as A, C. -/
theorem reconciler_l3_cap (cat : Catalog) (pid : String)
    (target : List String) (lm : LevelMap) (max_l3 : Nat) :
    (∀ cid ∈ toAddOf cat pid target, lmIsL3 (some lm) cid = false →
      cid ∈ allowedAddOf cat pid target (some lm) max_l3)
    ∧ ((allowedAddOf cat pid target (some lm) max_l3).filter
          (lmIsL3 (some lm))).length =
        min ((toAddOf cat pid target).filter (lmIsL3 (some lm))).length
          (max_l3 - min (initialL3Count (some lm) (currentIdsOf cat pid))
            max_l3)
    ∧ update_product_collections (fun _ _ => true) cat pid target (some lm)
        max_l3 false =
      (cat ++ (allowedAddOf cat pid target (some lm) max_l3).map
        (fun cid => (pid, cid)), Except.ok true)
    ∧ get_product_current_collections
        (update_product_collections (fun _ _ => true)
          [("p", "A")] "p" ["B", "C"]
          (some [("A", 3), ("B", 3), ("C", 1)]) 1 false).1 "p" =
      ["A", "C"] := by
  refine ⟨?_, ?_, ?_, ?_⟩
  · intro cid hmem h3
    exact computeAllowedAdd_nonl3_mem (some lm) max_l3 cid _ _ hmem h3
  · exact computeAllowedAdd_l3_count (some lm) max_l3 _ _
  · simp only [update_product_collections]
    rw [performSaves_all_ok (fun _ _ => true) pid _ cat (fun _ _ => rfl)]
    simp
  · decide

/-- Witness for C8: on the spec's example, C (level 1) is accepted while
B (level 3, cap already reached) is not. -/
theorem reconciler_l3_cap_witness :
    "C" ∈ allowedAddOf [("p", "A")] "p" ["B", "C"]
      (some [("A", 3), ("B", 3), ("C", 1)]) 1 :=
  (reconciler_l3_cap [("p", "A")] "p" ["B", "C"]
    [("A", 3), ("B", 3), ("C", 1)] 1).1 "C" (by decide) (by decide)

/-! ### Cleanup lemmas (C9) -/

theorem mem_get_product_current_collections (cat : Catalog)
    (pid cid : String) :
    cid ∈ get_product_current_collections cat pid ↔ (pid, cid) ∈ cat := by
  unfold get_product_current_collections
  simp only [List.mem_map, List.mem_filter]
  constructor
  · rintro ⟨⟨a, b⟩, ⟨hmem, hpa⟩, rfl⟩
    have : a = pid := by simpa using hpa
    subst this
    exact hmem
  · intro h
    exact ⟨(pid, cid), ⟨h, by simp⟩, rfl⟩

theorem mem_currentIdsOf (cat : Catalog) (pid cid : String) :
    cid ∈ currentIdsOf cat pid ↔ (pid, cid) ∈ cat := by
  unfold currentIdsOf
  rw [List.mem_dedup]
  exact mem_get_product_current_collections cat pid cid

theorem length_filter_add_length_filter_not {α : Type} (p : α → Bool)
    (l : List α) :
    (l.filter p).length + (l.filter (fun x => !p x)).length = l.length := by
  induction l with
  | nil => rfl
  | cons a t ih =>
    rw [List.filter_cons, List.filter_cons]
    by_cases h : p a = true
    · simp only [h, if_true, Bool.not_true, Bool.false_eq_true, if_false,
        List.length_cons]
      omega
    · simp only [h, Bool.false_eq_true, if_false]
      simp only [Bool.not_eq_true] at h
      simp only [h, Bool.not_false, if_true, List.length_cons]
      omega

theorem length_filter_mem_eq {l r : List String} (hl : l.Nodup)
    (hr : r.Nodup) (hsub : ∀ x ∈ r, x ∈ l) :
    (l.filter (fun x => decide (x ∈ r))).length = r.length := by
  apply Nat.le_antisymm
  · refine (List.subperm_of_subset (hl.filter _) ?_).length_le
    intro x hx
    exact of_decide_eq_true (List.mem_filter.mp hx).2
  · refine (List.subperm_of_subset hr ?_).length_le
    intro x hx
    exact List.mem_filter.mpr ⟨hsub x hx, decide_eq_true hx⟩

theorem length_filter_mem_le {l : List String} (r : List String)
    (hl : l.Nodup) :
    (l.filter (fun x => decide (x ∈ r))).length ≤ r.length := by
  refine (List.subperm_of_subset (hl.filter _) ?_).length_le
  intro x hx
  exact of_decide_eq_true (List.mem_filter.mp hx).2

theorem cleanup_counts (l3 keep : List String) (max_l3 : Nat)
    (hnd : l3.Nodup) (hkeep : keep.length ≤ max_l3)
    (hx : l3.length > max_l3) :
    ((l3.filter (fun cid => decide (cid ∉ keep))).take
        (l3.length - max_l3)).length = l3.length - max_l3
    ∧ (l3.filter (fun cid => decide (cid ∉
        (l3.filter (fun cid => decide (cid ∉ keep))).take
          (l3.length - max_l3)))).length = max_l3 := by
  have hdn : l3.filter (fun cid => decide (cid ∉ keep)) =
      l3.filter (fun x => !decide (x ∈ keep)) := by
    simp [decide_not]
  have hpart := length_filter_add_length_filter_not
    (fun cid => decide (cid ∈ keep)) l3
  have hle := length_filter_mem_le keep hnd
  have hlen_nk : (l3.filter (fun cid => decide (cid ∉ keep))).length ≥
      l3.length - max_l3 := by
    rw [hdn]
    omega
  have hlen_rem : ((l3.filter (fun cid => decide (cid ∉ keep))).take
      (l3.length - max_l3)).length = l3.length - max_l3 := by
    rw [List.length_take]
    omega
  refine ⟨hlen_rem, ?_⟩
  have hsubl : List.Sublist ((l3.filter
      (fun cid => decide (cid ∉ keep))).take (l3.length - max_l3)) l3 :=
    (List.take_sublist _ _).trans (List.filter_sublist _)
  have hremnd : ((l3.filter (fun cid => decide (cid ∉ keep))).take
      (l3.length - max_l3)).Nodup := hsubl.nodup hnd
  have heqc : (l3.filter (fun cid => decide (cid ∈
      (l3.filter (fun cid => decide (cid ∉ keep))).take
        (l3.length - max_l3)))).length =
      ((l3.filter (fun cid => decide (cid ∉ keep))).take
        (l3.length - max_l3)).length :=
    length_filter_mem_eq hnd hremnd (fun x hx => hsubl.subset hx)
  have hdn2 : l3.filter (fun cid => decide (cid ∉
      (l3.filter (fun cid => decide (cid ∉ keep))).take
        (l3.length - max_l3))) =
      l3.filter (fun x => !decide (x ∈
      (l3.filter (fun cid => decide (cid ∉ keep))).take
        (l3.length - max_l3))) := by
    simp [decide_not]
  have hpart2 := length_filter_add_length_filter_not
    (fun cid => decide (cid ∈
      (l3.filter (fun cid => decide (cid ∉ keep))).take
        (l3.length - max_l3))) l3
  rw [hdn2]
  omega

/-- C9: with cleanup requested and every target id already a member,
whenever the level-3 membership set exceeds `max_l3` the apply operation
succeeds, keeps every membership that is non-L3 or among the first
`max_l3` target entries, removes only L3 memberships outside those first
`max_l3` target entries, removes exactly the excess count (leaving exactly
`max_l3` L3 memberships), and on the spec's example ({A,B,D} all level 3,
maxL3 = 2, target [B,A]) D is removed while A and B remain. -/
theorem reconciler_cleanup_removes_excess
    (writeOk : String → String → Bool) (cat : Catalog) (pid : String)
    (target : List String) (lm : LevelMap) (max_l3 : Nat)
    (hlm : lm ≠ [])
    (hsub : ∀ cid ∈ target, cid ∈ currentIdsOf cat pid)
    (hx : ((currentIdsOf cat pid).filter
      (fun cid => lmGet lm cid == some 3)).length > max_l3) :
    (update_product_collections writeOk cat pid target (some lm) max_l3
      true).2 = Except.ok true
    ∧ (∀ cid ∈ currentIdsOf cat pid,
        (¬ (lmGet lm cid == some 3) = true ∨
          cid ∈ (target.take max_l3).dedup) →
        cid ∈ get_product_current_collections
          (update_product_collections writeOk cat pid target (some lm)
            max_l3 true).1 pid)
    ∧ (∀ cid ∈ currentIdsOf cat pid,
        cid ∉ get_product_current_collections
          (update_product_collections writeOk cat pid target (some lm)
            max_l3 true).1 pid →
        (lmGet lm cid == some 3) = true ∧
          cid ∉ (target.take max_l3).dedup)
    ∧ (((currentIdsOf cat pid).filter
          (fun cid => lmGet lm cid == some 3)).filter
        (fun cid => decide (cid ∈ get_product_current_collections
          (update_product_collections writeOk cat pid target (some lm)
            max_l3 true).1 pid))).length = max_l3
    ∧ get_product_current_collections
        (update_product_collections (fun _ _ => true)
          [("p", "A"), ("p", "B"), ("p", "D")] "p" ["B", "A"]
          (some [("A", 3), ("B", 3), ("D", 3)]) 2 true).1 "p" =
      ["A", "B"] := by
  have hta : toAddOf cat pid target = [] := by
    refine List.filter_eq_nil_iff.mpr ?_
    intro cid hc
    simp [hsub cid hc]
  have hallowed : allowedAddOf cat pid target (some lm) max_l3 = [] := by
    rw [allowedAddOf, hta]
    rfl
  have hlmT : lmTruthy (some lm) = true := by
    simp [lmTruthy, List.isEmpty_iff, hlm]
  have hupd : update_product_collections writeOk cat pid target (some lm)
      max_l3 true =
      (cat.filter (fun m => !(m.1 == pid &&
        ((((currentIdsOf cat pid).filter
          (fun cid => lmGet lm cid == some 3)).filter
          (fun cid => decide (cid ∉ (target.take max_l3).dedup))).take
          ((((currentIdsOf cat pid).filter
            (fun cid => lmGet lm cid == some 3)).length) - max_l3)).contains
          m.2)), Except.ok true) := by
    simp only [update_product_collections, hallowed, performSaves, hlmT,
      Bool.true_and, Option.getD_some, if_true]
    rw [if_pos hx]
  set current := currentIdsOf cat pid with hcur
  set l3 := current.filter (fun cid => lmGet lm cid == some 3) with hl3
  set keep := (target.take max_l3).dedup with hkeepdef
  set remove := (l3.filter (fun cid => decide (cid ∉ keep))).take
    (l3.length - max_l3) with hremdef
  have hndcur : current.Nodup := by
    rw [hcur]
    unfold currentIdsOf
    exact List.nodup_dedup _
  have hndl3 : l3.Nodup := by
    rw [hl3]
    exact hndcur.filter _
  have hkeeplen : keep.length ≤ max_l3 := by
    rw [hkeepdef]
    exact le_trans (List.Sublist.length_le (List.dedup_sublist _))
      (List.length_take_le _ _)
  have hcounts := cleanup_counts l3 keep max_l3 hndl3 hkeeplen hx
  have hremsub : List.Sublist remove l3 := by
    rw [hremdef]
    exact (List.take_sublist _ _).trans (List.filter_sublist _)
  have hremmem : ∀ cid ∈ remove,
      (lmGet lm cid == some 3) = true ∧ cid ∉ keep := by
    intro cid hc
    rw [hremdef] at hc
    have h1 := List.mem_of_mem_take hc
    have h2 := List.mem_filter.mp h1
    have h3 := List.mem_filter.mp h2.1
    exact ⟨h3.2, of_decide_eq_true h2.2⟩
  have hfinal : ∀ cid, cid ∈ current →
      (cid ∈ get_product_current_collections
        (update_product_collections writeOk cat pid target (some lm)
          max_l3 true).1 pid ↔ cid ∉ remove) := by
    intro cid hc
    rw [hupd, mem_get_product_current_collections]
    constructor
    · intro hmem
      have hpred := (List.mem_filter.mp hmem).2
      simpa using hpred
    · intro hnot
      refine List.mem_filter.mpr ⟨?_, ?_⟩
      · exact (mem_currentIdsOf cat pid cid).mp (hcur ▸ hc)
      · simpa using hnot
  refine ⟨?_, ?_, ?_, ?_, ?_⟩
  · rw [hupd]
  · intro cid hc hside
    refine (hfinal cid hc).mpr ?_
    intro hmem
    obtain ⟨hl3m, hkm⟩ := hremmem cid hmem
    rcases hside with hside | hside
    · exact hside hl3m
    · exact hkm hside
  · intro cid hc hnotfin
    have hmem : cid ∈ remove := by
      by_contra hnr
      exact hnotfin ((hfinal cid hc).mpr hnr)
    exact hremmem cid hmem
  · have hcong : l3.filter (fun cid => decide
        (cid ∈ get_product_current_collections
          (update_product_collections writeOk cat pid target (some lm)
            max_l3 true).1 pid)) =
        l3.filter (fun cid => decide (cid ∉ remove)) := by
      apply List.filter_congr
      intro cid hcmem
      have hccur : cid ∈ current := by
        rw [hl3] at hcmem
        exact (List.mem_filter.mp hcmem).1
      exact decide_eq_decide.mpr (hfinal cid hccur)
    rw [hcong]
    exact hcounts.2
  · decide

/-- Witness for C9 on the spec's example: membership A (in the kept
first-maxL3 target set) survives the cleanup. -/
theorem reconciler_cleanup_removes_excess_witness :
    "A" ∈ get_product_current_collections
      (update_product_collections (fun _ _ => true)
        [("p", "A"), ("p", "B"), ("p", "D")] "p" ["B", "A"]
        (some [("A", 3), ("B", 3), ("D", 3)]) 2 true).1 "p" :=
  (reconciler_cleanup_removes_excess (fun _ _ => true)
    [("p", "A"), ("p", "B"), ("p", "D")] "p" ["B", "A"]
    [("A", 3), ("B", 3), ("D", 3)] 2 (by decide) (by decide)
    (by decide)).2.1 "A" (by decide) (Or.inr (by decide))

/-! ## Reconciliation driver (app.py) -/

/-- The confidence filter of `apply_assignments` (app.py line 178): ids of
assignments with confidence above 0.8. -/
def confidentCollectionIds (assigned : List Assignment) : List String :=
  (assigned.filter (fun c => (0.8 : ℚ) < c.confidence)).map Assignment.id

/-- The selection filter of `apply_assignments` (app.py lines 170-173):
processed entries not yet applied. -/
def applySelectable (p : QueueEntry) : Bool :=
  p.status == "processed" && p.applied == false

/-- The `for product in products` loop of `apply_assignments` (app.py
lines 176-189), walking the table in order with the query's limit budget.
The loop has no per-item exception handling: an error from
`update_product_collections` aborts it at once, leaving later entries
unvisited.  The `else` branch recording 'Failed to update Shopify' mirrors
app.py lines 187-189, reachable only if the update returned `False`. -/
def apply_assignments_loop (writeOk : String → String → Bool) :
    Nat → List QueueEntry → Catalog →
    Catalog × List QueueEntry × Nat × Option String
  | _, [], cat => (cat, [], 0, none)
  | budget, product :: rest, cat =>
    if budget ≠ 0 ∧ applySelectable product = true then
      if product.assigned_collections.isEmpty then
        match apply_assignments_loop writeOk (budget - 1) rest cat with
        | (cat1, rest1, n, err) => (cat1, product :: rest1, n, err)
      else
        let collection_ids :=
          confidentCollectionIds product.assigned_collections
        if collection_ids.isEmpty then
          match apply_assignments_loop writeOk (budget - 1) rest cat with
          | (cat1, rest1, n, err) => (cat1, product :: rest1, n, err)
        else
          match update_product_collections writeOk cat product.product_id
              collection_ids none 2 false with
          | (cat1, Except.error e) => (cat1, product :: rest, 0, some e)
          | (cat1, Except.ok success) =>
            if success then
              match apply_assignments_loop writeOk (budget - 1) rest
                  cat1 with
              | (cat2, rest1, n, err) =>
                (cat2, { product with applied := true } :: rest1, n + 1,
                 err)
            else
              match apply_assignments_loop writeOk (budget - 1) rest
                  cat1 with
              | (cat2, rest1, n, err) =>
                (cat2, { product with
                    status := "error"
                    error_message := some "Failed to update Shopify" } ::
                  rest1, n, err)
    else
      match apply_assignments_loop writeOk budget rest cat with
      | (cat1, rest1, n, err) => (cat1, product :: rest1, n, err)

/-- `apply_assignments` (app.py lines 155-203).  On success the session is
committed and the updated rows persist; when a catalog write raised, the
route handler returns the error and the session's uncommitted row changes
are discarded — the queue is unchanged while the external writes already
made remain in the catalog. -/
def apply_assignments (writeOk : String → String → Bool) (cat : Catalog)
    (queue : List QueueEntry) :
    Catalog × List QueueEntry × Except String Nat :=
  match apply_assignments_loop writeOk 10 queue cat with
  | (cat1, queue1, n, none) => (cat1, queue1, Except.ok n)
  | (cat1, _, _, some e) => (cat1, queue, Except.error e)

instance {e a : Type} [DecidableEq e] [DecidableEq a] :
    DecidableEq (Except e a) := fun x y =>
  match x, y with
  | Except.error e1, Except.error e2 =>
    if h : e1 = e2 then Decidable.isTrue (by rw [h])
    else Decidable.isFalse (fun hc => by cases hc; exact h rfl)
  | Except.error _, Except.ok _ => Decidable.isFalse (fun hc => by cases hc)
  | Except.ok _, Except.error _ => Decidable.isFalse (fun hc => by cases hc)
  | Except.ok a1, Except.ok a2 =>
    if h : a1 = a2 then Decidable.isTrue (by rw [h])
    else Decidable.isFalse (fun hc => by cases hc; exact h rfl)

/-- A processed, unapplied entry whose assignment list triggers two
catalog writes. -/
def processedEntry1 : QueueEntry :=
  { product_id := "p1", title := "T1", description := ""
    status := "processed", processed_at := some 1
    assigned_collections :=
      [{ id := "cA", title := "A", confidence := 0.9 },
       { id := "cB", title := "B", confidence := 0.9 }]
    error_message := none, retry_count := 0, applied := false
    confidence_scores := [] }

/-- A second processed, unapplied entry in the same apply batch. -/
def processedEntry2 : QueueEntry :=
  { product_id := "p2", title := "T2", description := ""
    status := "processed", processed_at := some 1
    assigned_collections :=
      [{ id := "cC", title := "C", confidence := 0.9 }]
    error_message := none, retry_count := 0, applied := false
    confidence_scores := [] }

/-- C3 evidence: when the write of "cB" for entry p1 fails, the already
written membership ("p1","cA") remains in the catalog, but the whole
apply batch aborts with the exception — no queue entry is marked 'error'
(p1 is unchanged) and the untouched second entry p2 is never processed,
contradicting the spec's per-item error containment. -/
theorem apply_assignments_write_failure_aborts_batch :
    apply_assignments (fun _ cid => !(cid == "cB")) []
      [processedEntry1, processedEntry2] =
      ([("p1", "cA")], [processedEntry1, processedEntry2],
       Except.error "Failed to save collect") := by
  have hconf : ((0.8 : ℚ) < 0.9) = True := by norm_num
  simp only [apply_assignments, apply_assignments_loop, applySelectable,
    processedEntry1, processedEntry2, confidentCollectionIds,
    update_product_collections, allowedAddOf, toAddOf, currentIdsOf,
    get_product_current_collections, initialL3Count, computeAllowedAdd,
    performSaves, lmIsL3, lmTruthy, hconf, List.filter_cons,
    List.filter_nil, List.map_cons, List.map_nil, List.isEmpty_cons,
    List.isEmpty_nil, List.dedup_nil, decide_True, decide_False]
  simp

/-! ## Manual retry (app.py `retry_errors`) -/

/-- `retry_errors` (app.py lines 256-274): every entry whose status is
'error' is reset to pending with cleared error message and zero retry
count. -/
def retry_errors (queue : List QueueEntry) : List QueueEntry :=
  queue.map (fun product =>
    if product.status = "error" then
      { product with
        status := "pending", error_message := none, retry_count := 0 }
    else product)

/-- C10: the manual retry sets status 'pending', clears the error message
and zeroes the retry counter for exactly the entries whose status is
'error', leaving every other entry unchanged; a reset entry satisfies the
batch processor's selection filter again, whatever its old retry count. -/
theorem retry_errors_resets_exactly_error_entries
    (queue : List QueueEntry) (i : Nat) (p : QueueEntry)
    (hp : queue[i]? = some p) :
    ((retry_errors queue)[i]? =
      some (if p.status = "error" then
        { p with
          status := "pending", error_message := none, retry_count := 0 }
      else p))
    ∧ (p.status = "error" →
        pendingSelectable { p with
          status := "pending", error_message := none
          retry_count := 0 } = true) := by
  constructor
  · rw [retry_errors, List.getElem?_map, hp]
    rfl
  · intro _
    rfl

/-- An error entry that has exhausted the retry ceiling. -/
def exhaustedEntry : QueueEntry :=
  { product_id := "p1", title := "T", description := "", status := "error"
    processed_at := none, assigned_collections := []
    error_message := some "boom", retry_count := 5, applied := false
    confidence_scores := [] }

/-- Witness for C10: the exhausted error entry (retry_count 5) is reset
and becomes selectable by `process_queue` again. -/
theorem retry_errors_resets_exactly_error_entries_witness :
    (retry_errors [exhaustedEntry])[0]? =
      some { exhaustedEntry with
        status := "pending", error_message := none, retry_count := 0 }
    ∧ pendingSelectable { exhaustedEntry with
        status := "pending", error_message := none
        retry_count := 0 } = true := by
  have h := retry_errors_resets_exactly_error_entries [exhaustedEntry] 0
    exhaustedEntry rfl
  exact ⟨h.1, h.2 rfl⟩

end Categoriser
